import Mathlib

/-!
Shallow embedding of the event-interpretation core of cRelay-crdt-db:
the Subspace Causality Tracker (orbitdb/causality.go), the User Activity
Aggregator (orbitdb/user_stats.go) and the Event to Document adapter
(orbitdb/adapter.go). Go maps are embedded as association lists whose
list order models the (unspecified) map iteration order; machine
integers are embedded as Nat with explicit reduction modulo 2 to the
word size where the Go code can overflow; fallible operations return
Except values. Store reads and writes are made explicit: each update
function is a pure function of the documents it reads, returning the
documents it writes.
-/

namespace CRelay

/-- An activity event, mirroring nostr.Event as used by this repository:
id, author pubkey, creation time, integer kind, content, signature and
an ordered list of tags, each tag an ordered list of strings. -/
structure NEvent where
  id : String
  pubkey : String
  created_at : Int
  kind : Int
  content : String
  sig : String
  tags : List (List String)
deriving Repr, DecidableEq

/-- Go conversion uint32(k) for an int k: the low 32 bits, i.e. k
modulo 2 to the 32, always nonnegative. -/
def u32 (k : Int) : Nat := (k % (2 : Int) ^ 32).toNat

/-- Go uint64 arithmetic wraps modulo 2 to the 64; every counter
increment in the embedded code is reduced by this function. -/
def u64mod (n : Nat) : Nat := n % 2 ^ 64

/-- Lookup in an association list embedding a Go map; the list order
models the map iteration order, the content models the map itself. -/
def alookup {α β : Type} [DecidableEq α] (k : α) : List (α × β) → Option β
  | [] => none
  | (a, v) :: rest => if a = k then some v else alookup k rest

/-- Go map assignment m[k] = v on the association-list embedding:
replace the binding in place when the key is present, append otherwise
(a fresh key lands at the end of the iteration order). -/
def aset {α β : Type} [DecidableEq α] (k : α) (v : β) : List (α × β) → List (α × β)
  | [] => [(k, v)]
  | (a, w) :: rest => if a = k then (k, v) :: rest else (a, w) :: aset k v rest

/-- First value of a tag named name. Embeds the Go loop pattern
used throughout the repository: scan tags in order, take the first tag
of length at least 2 whose first element equals name, yield its second
element and stop; yield the empty string when no tag matches (the
callers treat the empty string as the tag being absent). -/
def findTagValue (name : String) : List (List String) → String
  | [] => ""
  | (a :: b :: _) :: rest => if a = name then b else findTagValue name rest
  | _ :: rest => findTagValue name rest

/-- strconv.ParseUint(s, 10, 32): succeeds exactly on a nonempty
all-decimal-digit string whose value fits in 32 bits; any sign, other
character or overflow is an error (embedded as none). -/
def parseUint32 (s : String) : Option Nat :=
  if s.toList = [] then none
  else if s.toList.all Char.isDigit then
    let v := s.toList.foldl (fun acc c => acc * 10 + (c.toNat - 48)) 0
    if v < 2 ^ 32 then some v else none
  else none

/-- strings.Split with a single-character separator (the only separators
parseOpsTag uses are the comma and the equals sign, both one byte), on
the character list: the pieces between separator occurrences, empty
pieces included, and one empty piece for the empty input. -/
def splitOnChar (sep : Char) : List Char → List (List Char)
  | [] => [[]]
  | c :: rest =>
    if c = sep then [] :: splitOnChar sep rest
    else
      match splitOnChar sep rest with
      | [] => [[c]]
      | h :: t => (c :: h) :: t

/-- parseOpsTag from causality.go: split the ops value on commas, split
each pair on an equals sign, keep exactly-two-part pairs whose value
parses as a uint32, and assign into a string-keyed map, so a later pair
with the same name overwrites an earlier one. -/
def parseOpsTag (opsValue : String) : List (String × Nat) :=
  (splitOnChar ',' opsValue.toList).foldl
    (fun result pair =>
      match splitOnChar '=' pair with
      | [key, valueStr] =>
        match parseUint32 (String.mk valueStr) with
        | some v => aset (String.mk key) v result
        | none => result
      | _ => result)
    []

/-- Character test from IsValidSubspaceID: decimal digit or hex letter
in either case. -/
def isHexDigit (c : Char) : Bool :=
  (('0' ≤ c && c ≤ '9') || ('a' ≤ c && c ≤ 'f') || ('A' ≤ c && c ≤ 'F'))

/-- IsValidSubspaceID from causality.go: length exactly 66, leading
characters 0 and x, and every remaining character a hex digit. Go
measures len in bytes and iterates runes; both agree with the
character-list embedding because any string passing the prefix and
hex-digit checks is pure ASCII. -/
def IsValidSubspaceID (sid : String) : Bool :=
  decide (sid.length = 66) &&
  (match sid.toList with
   | c0 :: c1 :: rest => c0 = '0' && c1 = 'x' && rest.all isHexDigit
   | _ => false)

/-- Modelled from the spec: validate(id) is true iff id matches 0x
followed by exactly 64 hex characters. Stated independently of the
source function so the two can be compared. -/
def specValidSubspaceID (sid : String) : Prop :=
  ∃ t : List Char, sid.toList = '0' :: 'x' :: t ∧ t.length = 64 ∧ ∀ c ∈ t, isHexDigit c

/-- SubspaceCausality document: per-subspace causality-key counters
(uint32 key to uint64 counter, as an association list in iteration
order) and the deduplicated event-id log. -/
structure SubspaceCausality where
  id : String
  subspace_id : String
  keys : List (Nat × Nat)
  events : List String
  created : Int
  updated : Int
deriving Repr, DecidableEq

/-- Outcome of one UpdateFromEvent call on the tracker: either the
function returned without writing (no sid tag, or an invalid one), or
it wrote the given document under its id. -/
inductive UpdateResult
  | noop
  | wrote (doc : SubspaceCausality)
deriving Repr, DecidableEq

/-- strings.HasSuffix on the character lists: the strings compared here
are ASCII decimal numerals and op names, for which byte suffixes and
character suffixes coincide. -/
def strHasSuffix (s post : String) : Bool := post.toList.isSuffixOf s.toList

/-- Fallback scan of UpdateFromEvent: walk the keys map in iteration
order and yield the first binding whose key, printed in decimal, ends
with the op-tag value. -/
def fallbackScan (opName : String) : List (Nat × Nat) → Option (Nat × Nat)
  | [] => none
  | (key, counter) :: rest =>
    if strHasSuffix (toString key) opName then some (key, counter)
    else fallbackScan opName rest

/-- Non-creation branch of UpdateFromEvent (the kind is not 30100): if
the op tag is absent, no counter changes; otherwise the uint32 kind is
tried as a key id first and its counter incremented when registered;
otherwise the fallback scan increments the first suffix-matching key;
when neither matches, the keys are unchanged. -/
def applyKeyUpdate (kind : Int) (opName : String) (keys : List (Nat × Nat)) :
    List (Nat × Nat) :=
  if opName = "" then keys
  else
    match alookup (u32 kind) keys with
    | some c => aset (u32 kind) (u64mod (c + 1)) keys
    | none =>
      match fallbackScan opName keys with
      | some (k, c) => aset k (u64mod (c + 1)) keys
      | none => keys

/-- Creation branch of UpdateFromEvent: every key id among the parsed
ops values is assigned counter 0, overwriting any existing binding. -/
def initKeys (ops : List (String × Nat)) (keys : List (Nat × Nat)) : List (Nat × Nat) :=
  ops.foldl (fun ks p => aset p.2 0 ks) keys

/-- UpdateFromEvent from causality.go, as a pure function of the stored
causality document for the sid tag of the event (none when absent) and
the clock value now. The function returns without writing when the
event has no sid tag or the sid fails validation; otherwise it loads or
creates the document, appends the event id to the log iff not already
present, bumps the updated timestamp, runs the creation branch on kind
30100 and the key-update branch on any other kind, and writes the
document back. Store I/O errors propagate unchanged in the Go code and
are not modelled here. -/
def UpdateFromEvent (stored : Option SubspaceCausality) (now : Int) (e : NEvent) :
    UpdateResult :=
  let subspaceID := findTagValue "sid" e.tags
  if subspaceID = "" then .noop
  else if IsValidSubspaceID subspaceID = false then .noop
  else
    let causality : SubspaceCausality :=
      match stored with
      | none =>
        { id := subspaceID, subspace_id := subspaceID, keys := [],
          events := [e.id], created := now, updated := now }
      | some c =>
        { c with
          events := if e.id ∈ c.events then c.events else c.events ++ [e.id],
          updated := now }
    let causality :=
      if e.kind = 30100 then
        let opsValue := findTagValue "ops" e.tags
        if opsValue = "" then causality
        else { causality with keys := initKeys (parseOpsTag opsValue) causality.keys }
      else
        { causality with
          keys := applyKeyUpdate e.kind (findTagValue "op" e.tags) causality.keys }
    .wrote causality

/-- One tracker step on the causality store (user id to stored
document): the document written by UpdateFromEvent lands under its id,
which equals the sid tag of the event. -/
def stepCausality (now : Int) (store : String → Option SubspaceCausality)
    (e : NEvent) : String → Option SubspaceCausality :=
  match UpdateFromEvent (store (findTagValue "sid" e.tags)) now e with
  | .noop => store
  | .wrote d => fun s => if s = d.id then some d else store s

/-- Fold of tracker steps over a delivered event sequence. -/
def runCausality (now : Int) (es : List NEvent)
    (store : String → Option SubspaceCausality) : String → Option SubspaceCausality :=
  es.foldl (stepCausality now) store

/-- Errors of the causality read path. -/
inductive CausErr
  | invalidFormat (sid : String)
  | subspaceNotFound (sid : String)
deriving Repr, DecidableEq

/-- GetSubspaceCausality: reject an invalid subspace id, otherwise
return the causality-discriminated document stored under the id, or
none when absent (absence is not an error). The store argument maps a
key to that discriminated document when one exists. -/
def GetSubspaceCausality (store : String → Option SubspaceCausality)
    (subspaceID : String) : Except CausErr (Option SubspaceCausality) :=
  if IsValidSubspaceID subspaceID = false then .error (.invalidFormat subspaceID)
  else .ok (store subspaceID)

/-- GetCausalityEvents: empty list, not an error, for an absent
subspace document. -/
def GetCausalityEvents (store : String → Option SubspaceCausality)
    (subspaceID : String) : Except CausErr (List String) :=
  match GetSubspaceCausality store subspaceID with
  | .error err => .error err
  | .ok none => .ok []
  | .ok (some c) => .ok c.events

/-- GetCausalityKey: an error for an absent subspace document, and 0,
not an error, for an unregistered key id of an existing document. -/
def GetCausalityKey (store : String → Option SubspaceCausality)
    (subspaceID : String) (keyID : Nat) : Except CausErr Nat :=
  match GetSubspaceCausality store subspaceID with
  | .error err => .error err
  | .ok none => .error (.subspaceNotFound subspaceID)
  | .ok (some c) =>
    match alookup keyID c.keys with
    | none => .ok 0
    | some counter => .ok counter

/-- GetAllCausalityKeys: empty map, not an error, for an absent
subspace document. -/
def GetAllCausalityKeys (store : String → Option SubspaceCausality)
    (subspaceID : String) : Except CausErr (List (Nat × Nat)) :=
  match GetSubspaceCausality store subspaceID with
  | .error err => .error err
  | .ok none => .ok []
  | .ok (some c) => .ok c.keys

/-- Per-subspace vote tallies from user_stats.go. -/
structure SubspaceVoteStats where
  totalVotes : Nat
  yesVotes : Nat
  noVotes : Nat
deriving Repr, DecidableEq

/-- Vote tallies of one user: totals plus per-subspace tallies. -/
structure VoteStats where
  totalVotes : Nat
  yesVotes : Nat
  noVotes : Nat
  subspaceVotes : List (String × SubspaceVoteStats)
deriving Repr, DecidableEq

/-- One accepted-invitation record. -/
structure InvitedUserInfo where
  userID : String
  subspaceID : String
  timestamp : Int
deriving Repr, DecidableEq

/-- Invitation tallies of one inviter. -/
structure InviteStats where
  totalInvited : Nat
  subspaceInvited : List (String × Nat)
  invitedUsers : List (String × List InvitedUserInfo)
deriving Repr, DecidableEq

/-- UserStats document from user_stats.go: per-kind totals (uint32 kind
to uint64 count), per-subspace per-kind counts, membership lists,
optional vote and invite tallies, last-updated timestamp. -/
structure UserStats where
  id : String
  totalStats : List (Nat × Nat)
  subspaceStats : List (String × List (Nat × Nat))
  createdSubspaces : List String
  joinedSubspaces : List String
  voteStats : Option VoteStats
  inviteStats : Option InviteStats
  lastUpdated : Int
deriving Repr, DecidableEq

/-- Fresh UserStats document created by UpdateUserStatsFromEvent when
the author has none (all maps empty, membership lists empty). -/
def freshUserStats (userID : String) (now : Int) : UserStats :=
  { id := userID, totalStats := [], subspaceStats := [],
    createdSubspaces := [], joinedSubspaces := [],
    voteStats := none, inviteStats := none, lastUpdated := now }

/-- updateInviterStats from user_stats.go: load the inviter document or
create a fresh one (the fresh one keeps the given timestamp, an
existing one keeps its own lastUpdated), ensure InviteStats exists,
increment totalInvited and the per-subspace invited count, and append
one record for the invited user under the subspace. -/
def updateInviterStats (stored : Option UserStats)
    (inviterID invitedID subspaceID : String) (timestamp : Int) : UserStats :=
  let inviterStats : UserStats :=
    match stored with
    | none =>
      { id := inviterID, totalStats := [], subspaceStats := [],
        createdSubspaces := [], joinedSubspaces := [],
        voteStats := none, inviteStats := none, lastUpdated := timestamp }
    | some s => s
  let inv : InviteStats :=
    match inviterStats.inviteStats with
    | none => { totalInvited := 0, subspaceInvited := [], invitedUsers := [] }
    | some i => i
  let inv : InviteStats :=
    { totalInvited := u64mod (inv.totalInvited + 1),
      subspaceInvited :=
        aset subspaceID (u64mod ((alookup subspaceID inv.subspaceInvited).getD 0 + 1))
          inv.subspaceInvited,
      invitedUsers :=
        aset subspaceID
          ((alookup subspaceID inv.invitedUsers).getD [] ++
            [{ userID := invitedID, subspaceID := subspaceID, timestamp := timestamp }])
          inv.invitedUsers }
  { inviterStats with inviteStats := some inv }

/-- Author-document part of UpdateUserStatsFromEvent: load or create,
set lastUpdated, bump the per-kind total, and when a sid tag is present
bump the per-subspace per-kind count and run the kind branch that edits
the author document (creation and join membership, vote tallies). The
invite branch, kind 30303, edits only the inviter document and is
handled by the store-level function below. -/
def updateAuthorStats (stored : Option UserStats) (now : Int) (e : NEvent) : UserStats :=
  let userID := e.pubkey
  let stats := match stored with
    | none => freshUserStats userID now
    | some s => s
  let stats := { stats with lastUpdated := now }
  let kind := u32 e.kind
  let stats :=
    { stats with
      totalStats := aset kind (u64mod ((alookup kind stats.totalStats).getD 0 + 1))
        stats.totalStats }
  let subspaceID := findTagValue "sid" e.tags
  if subspaceID = "" then stats
  else
    let sub := (alookup subspaceID stats.subspaceStats).getD []
    let stats :=
      { stats with
        subspaceStats :=
          aset subspaceID (aset kind (u64mod ((alookup kind sub).getD 0 + 1)) sub)
            stats.subspaceStats }
    if kind = 30100 then
      if subspaceID ∈ stats.createdSubspaces then stats
      else { stats with createdSubspaces := stats.createdSubspaces ++ [subspaceID] }
    else if kind = 30200 then
      if subspaceID ∈ stats.joinedSubspaces then stats
      else { stats with joinedSubspaces := stats.joinedSubspaces ++ [subspaceID] }
    else if kind = 30302 then
      let vs : VoteStats := match stats.voteStats with
        | none => { totalVotes := 0, yesVotes := 0, noVotes := 0, subspaceVotes := [] }
        | some v => v
      let sv : SubspaceVoteStats := (alookup subspaceID vs.subspaceVotes).getD
        { totalVotes := 0, yesVotes := 0, noVotes := 0 }
      let vs : VoteStats :=
        { vs with totalVotes := u64mod (vs.totalVotes + 1) }
      let sv : SubspaceVoteStats :=
        { sv with totalVotes := u64mod (sv.totalVotes + 1) }
      let voteValue := findTagValue "vote" e.tags
      let vs :=
        if voteValue = "yes" then { vs with yesVotes := u64mod (vs.yesVotes + 1) }
        else if voteValue = "no" then { vs with noVotes := u64mod (vs.noVotes + 1) }
        else vs
      let sv :=
        if voteValue = "yes" then { sv with yesVotes := u64mod (sv.yesVotes + 1) }
        else if voteValue = "no" then { sv with noVotes := u64mod (sv.noVotes + 1) }
        else sv
      { stats with voteStats := some { vs with subspaceVotes := aset subspaceID sv vs.subspaceVotes } }
    else stats

/-- UpdateUserStatsFromEvent from user_stats.go as a store transformer.
The author document is read first; on an invite-acceptance event (uint32
kind 30303 with a sid tag) carrying a nonempty inviter_addr tag, the
inviter document receives a second, independent read-modify-write
before the author document is saved; a failure of that secondary update
(injected through inviterUpdateOk = false, covering a failed read or
write of the inviter document) is only logged, leaves the inviter
document unchanged and does not stop the author save. The primary save
is the last write, so it is applied on top. -/
def UpdateUserStatsFromEvent (store : String → Option UserStats) (now : Int)
    (e : NEvent) (inviterUpdateOk : Bool) : String → Option UserStats :=
  let userID := e.pubkey
  let stats := updateAuthorStats (store userID) now e
  let subspaceID := findTagValue "sid" e.tags
  let inviterAddr := findTagValue "inviter_addr" e.tags
  let store1 :=
    if subspaceID ≠ "" ∧ u32 e.kind = 30303 ∧ inviterAddr ≠ "" ∧ inviterUpdateOk then
      fun uid =>
        if uid = inviterAddr then
          some (updateInviterStats (store inviterAddr) inviterAddr userID subspaceID now)
        else store uid
    else store
  fun uid => if uid = userID then some stats else store1 uid

/-- A loosely-typed stored document as the adapter query functions read
it: each field is the value of the corresponding Go type assertion on
the map entry, none when the entry is absent (or not of the asserted
type; the documents this program writes are always well typed). The
kind field is stored as a JSON number and read back through float64;
integral values round-trip, so it is embedded as Int. -/
structure Doc where
  docType : Option String
  idField : Option String
  pubkey : Option String
  createdAt : Option Int
  kind : Option Int
  content : Option String
  sig : Option String
  tags : Option (List (List String))
deriving Repr, DecidableEq

/-- Document type discriminators from causality.go. -/
def DocTypeNostrEvent : String := "nostr_event"

/-- Discriminator of causality documents. -/
def DocTypeCausality : String := "causality"

/-- A nostr filter as the adapter consumes it: id, author and kind value
sets plus tag-name to allowed-values entries (the Go map embedded as an
association list; the predicate is order-insensitive). -/
structure NFilter where
  ids : List String
  authors : List String
  kinds : List Int
  tags : List (String × List String)
deriving Repr, DecidableEq

/-- strings.EqualFold restricted to the ASCII folding the stored tag
names use: case-insensitive equality via characterwise lowercasing. -/
def eqFold (a b : String) : Bool :=
  a.toList.map Char.toLower = b.toList.map Char.toLower

/-- Tag-dimension test of QueryEvents for one filter entry: some tag of
the document has length at least 2, a first element equal to the filter
tag name up to case, and a second element among the allowed values. -/
def tagMatches (docTags : List (List String)) (tagName : String)
    (tagValues : List String) : Bool :=
  docTags.any (fun tag =>
    match tag with
    | name :: value :: _ => eqFold name tagName && value ∈ tagValues
    | _ => false)

/-- Predicate of QueryEvents (its queryFn): the document must carry the
event discriminator, then AND across the ids, authors, kinds and tags
dimensions, OR within each value set; an empty dimension is a pass, an
empty value list of a tag entry is skipped. -/
def queryMatch (filter : NFilter) (d : Doc) : Bool :=
  (d.docType = some DocTypeNostrEvent : Bool) &&
  (filter.ids = [] ||
    match d.idField with
    | some i => i ∈ filter.ids
    | none => false) &&
  (filter.authors = [] ||
    match d.pubkey with
    | some p => p ∈ filter.authors
    | none => false) &&
  (filter.kinds = [] ||
    match d.kind with
    | some k => k ∈ filter.kinds
    | none => false) &&
  (filter.tags = [] ||
    match d.tags with
    | none => false
    | some ts => filter.tags.all (fun p => p.2 = [] || tagMatches ts p.1 p.2))

/-- Predicate of CountEvents (its queryFn): the ids, authors and kinds
dimensions only; it checks neither the document discriminator nor the
tags dimension. -/
def countMatch (filter : NFilter) (d : Doc) : Bool :=
  (filter.ids = [] ||
    match d.idField with
    | some i => i ∈ filter.ids
    | none => false) &&
  (filter.authors = [] ||
    match d.pubkey with
    | some p => p ∈ filter.authors
    | none => false) &&
  (filter.kinds = [] ||
    match d.kind with
    | some k => k ∈ filter.kinds
    | none => false)

/-- CountEvents: the number of stored documents its predicate accepts. -/
def CountEvents (filter : NFilter) (docs : List Doc) : Nat :=
  (docs.filter (countMatch filter)).length

/-- QueryEvents: the documents delivered on the output channel, one
event per matching document, in store order. -/
def QueryEventsDocs (filter : NFilter) (docs : List Doc) : List Doc :=
  docs.filter (queryMatch filter)

/-- The document SaveEvent writes for an event: every event field plus
the event discriminator. -/
def eventDoc (e : NEvent) : Doc :=
  { docType := some DocTypeNostrEvent, idField := some e.id,
    pubkey := some e.pubkey, createdAt := some e.created_at,
    kind := some e.kind, content := some e.content, sig := some e.sig,
    tags := some e.tags }

/-- Outcome of SaveEvent: the nil-event rejection, a failed primary
write, or a successful save carrying the written document and whether
each best-effort derived update failed (and was logged). -/
inductive SaveOutcome
  | errNilEvent
  | errPut
  | saved (doc : Doc) (trackerFailLogged : Bool) (aggFailLogged : Bool)
deriving Repr, DecidableEq

/-- Whether a SaveEvent outcome is an error return. -/
def saveErrored : SaveOutcome → Bool
  | .errNilEvent => true
  | .errPut => true
  | .saved _ _ _ => false

/-- SaveEvent from adapter.go with the collaborator results injected:
putErr is the primary store write result, trackerErr and aggErr the
results of the two derived updates (none = success). A nil event or a
failed Put returns an error before anything else happens; once the
primary write succeeds the derived updates run, their failures are only
recorded as logged, and the function returns success with the written
document untouched. -/
def SaveEvent (e : Option NEvent) (putErr : Option String)
    (trackerErr aggErr : Option String) : SaveOutcome :=
  match e with
  | none => .errNilEvent
  | some ev =>
    match putErr with
    | some _ => .errPut
    | none => .saved (eventDoc ev) trackerErr.isSome aggErr.isSome

/-! Concrete fixtures used by witnesses and counterexamples. -/

/-- A syntactically valid subspace id: 0x followed by 64 hex characters. -/
def sid64 : String := "0xaaaaaaaaaaaaaaaaaaaaaaaaaaaaaaaaaaaaaaaaaaaaaaaaaaaaaaaaaaaaaaaa"

/-- Event constructor fixing the fields the claims do not vary. -/
def mkEv (i pk : String) (k : Int) (tg : List (List String)) : NEvent :=
  { id := i, pubkey := pk, created_at := 0, kind := k, content := "",
    sig := "", tags := tg }

/-- A subspace-creation event with the ops tag of the testable property. -/
def evCreate : NEvent := mkEv "ev1" "alice" 30100 [["sid", sid64], ["ops", "create=1,vote=2"]]

/-- A kind-2 event carrying an op tag. -/
def evKind2Op : NEvent := mkEv "ev2" "alice" 2 [["sid", sid64], ["op", "vote"]]

/-- A kind-2 event with no op tag. -/
def evKind2NoOp : NEvent := mkEv "ev2" "alice" 2 [["sid", sid64]]

/-- A stored causality document whose key 1 already has counter 5. -/
def cWithCounter5 : SubspaceCausality :=
  { id := sid64, subspace_id := sid64, keys := [(1, 5)], events := ["e0"],
    created := 0, updated := 0 }

/-- The causality document produced by evCreate from an absent one. -/
def cAfterCreate : SubspaceCausality :=
  { id := sid64, subspace_id := sid64, keys := [(1, 0), (2, 0)],
    events := ["ev1"], created := 0, updated := 0 }

/-- Keys 12 and 22, both with counter 0, in one iteration order. -/
def cOrderA : SubspaceCausality :=
  { id := sid64, subspace_id := sid64, keys := [(12, 0), (22, 0)],
    events := [], created := 0, updated := 0 }

/-- The same key map as cOrderA in the opposite iteration order. -/
def cOrderB : SubspaceCausality :=
  { id := sid64, subspace_id := sid64, keys := [(22, 0), (12, 0)],
    events := [], created := 0, updated := 0 }

/-- A kind-5 event whose op value 2 is a decimal suffix of both key 12
and key 22, while kind 5 is not a registered key. -/
def evSuffix2 : NEvent := mkEv "ev10" "alice" 5 [["sid", sid64], ["op", "2"]]

/-- A vote event of user bob in subspace sid64. -/
def voteEv (i v : String) : NEvent := mkEv i "bob" 30302 [["sid", sid64], ["vote", v]]

/-- An invite-acceptance event from bob carrying the inviter_addr tag. -/
def evInvite : NEvent := mkEv "inv1" "bob" 30303 [["sid", sid64], ["inviter_addr", "alice"]]

/-- An invite-acceptance event from bob carrying a tag literally named
inviter, the name the claim and the spec use. -/
def evInviteSpecTag : NEvent := mkEv "inv1" "bob" 30303 [["sid", sid64], ["inviter", "alice"]]

/-- A stored causality document under the adapter discriminator rules:
a causality document, not an event. -/
def causalityDoc : Doc :=
  { docType := some DocTypeCausality, idField := some sid64, pubkey := none,
    createdAt := none, kind := none, content := none, sig := none, tags := none }

/-- The empty filter: every dimension passes. -/
def emptyFilter : NFilter := { ids := [], authors := [], kinds := [], tags := [] }

/-- A filter with one tag condition on sid. -/
def sidFilter : NFilter := { ids := [], authors := [], kinds := [], tags := [("sid", ["0x01"])] }

/-- The stored document of an event that carries no tags at all. -/
def evNoTagDoc : Doc := eventDoc (mkEv "e" "p" 1 [])

/-! Association-list lemmas shared by the claim proofs. -/

theorem alookup_aset_self {α β : Type} [DecidableEq α] (k : α) (v : β)
    (m : List (α × β)) : alookup k (aset k v m) = some v := by
  induction m with
  | nil => simp [aset, alookup]
  | cons p rest ih =>
    obtain ⟨a, w⟩ := p
    by_cases h : a = k
    · subst h; simp [aset, alookup]
    · simp [aset, alookup, h, ih]

theorem alookup_aset_of_ne {α β : Type} [DecidableEq α] (a k : α) (v : β)
    (m : List (α × β)) (h : a ≠ k) : alookup a (aset k v m) = alookup a m := by
  have h' : k ≠ a := Ne.symm h
  induction m with
  | nil => simp [aset, alookup, h']
  | cons p rest ih =>
    obtain ⟨b, w⟩ := p
    by_cases hb : b = k
    · subst hb
      simp [aset, alookup, h']
    · simp [aset, alookup, hb, ih]

theorem alookup_isSome_aset {α β : Type} [DecidableEq α] (a k : α) (v : β)
    (m : List (α × β)) (h : (alookup a m).isSome = true) :
    (alookup a (aset k v m)).isSome = true := by
  by_cases hak : a = k
  · subst hak; simp [alookup_aset_self]
  · rw [alookup_aset_of_ne a k v m hak]; exact h

theorem initKeys_isSome (ops : List (String × Nat)) (ks : List (Nat × Nat)) (a : Nat)
    (h : (alookup a ks).isSome = true) :
    (alookup a (initKeys ops ks)).isSome = true := by
  induction ops generalizing ks with
  | nil => simpa [initKeys] using h
  | cons p rest ih =>
    simp only [initKeys, List.foldl_cons] at *
    exact ih _ (alookup_isSome_aset a p.2 0 ks h)

theorem initKeys_lookup_of_not_mem (ops : List (String × Nat)) (ks : List (Nat × Nat))
    (a : Nat) (h : a ∉ ops.map Prod.snd) :
    alookup a (initKeys ops ks) = alookup a ks := by
  induction ops generalizing ks with
  | nil => simp [initKeys]
  | cons p rest ih =>
    simp only [List.map_cons, List.mem_cons] at h
    push_neg at h
    simp only [initKeys, List.foldl_cons] at *
    rw [ih _ h.2, alookup_aset_of_ne a p.2 0 ks h.1]

theorem initKeys_lookup_of_mem (ops : List (String × Nat)) (ks : List (Nat × Nat))
    (a : Nat) (h : a ∈ ops.map Prod.snd) :
    alookup a (initKeys ops ks) = some 0 := by
  induction ops generalizing ks with
  | nil => simp at h
  | cons p rest ih =>
    simp only [initKeys, List.foldl_cons]
    by_cases hm : a ∈ rest.map Prod.snd
    · exact ih _ hm
    · have ha : a = p.2 := by
        simp only [List.map_cons, List.mem_cons] at h
        tauto
      show alookup a (initKeys rest (aset p.2 0 ks)) = some 0
      rw [initKeys_lookup_of_not_mem rest _ a hm, ha, alookup_aset_self]

theorem applyKeyUpdate_isSome (kind : Int) (opName : String) (keys : List (Nat × Nat))
    (a : Nat) (h : (alookup a keys).isSome = true) :
    (alookup a (applyKeyUpdate kind opName keys)).isSome = true := by
  unfold applyKeyUpdate
  split
  · exact h
  · split
    · exact alookup_isSome_aset a _ _ keys h
    · split
      · exact alookup_isSome_aset a _ _ keys h
      · exact h

/-- Keys of the loaded document, empty for a fresh one. -/
def storedKeys : Option SubspaceCausality → List (Nat × Nat)
  | none => []
  | some c => c.keys

/-- The event log after one update: a fresh document starts with the
event id, an existing one gains it iff it is not already present. -/
def logAfter (stored : Option SubspaceCausality) (eid : String) : List String :=
  match stored with
  | none => [eid]
  | some c => if eid ∈ c.events then c.events else c.events ++ [eid]

/-- The document the write branch of UpdateFromEvent produces, split
out of the definition so its fields can be reasoned about. -/
def updateResultDoc (stored : Option SubspaceCausality) (now : Int) (e : NEvent) :
    SubspaceCausality :=
  let subspaceID := findTagValue "sid" e.tags
  let base : SubspaceCausality :=
    match stored with
    | none =>
      { id := subspaceID, subspace_id := subspaceID, keys := [],
        events := [e.id], created := now, updated := now }
    | some c =>
      { c with
        events := if e.id ∈ c.events then c.events else c.events ++ [e.id],
        updated := now }
  if e.kind = 30100 then
    let opsValue := findTagValue "ops" e.tags
    if opsValue = "" then base
    else { base with keys := initKeys (parseOpsTag opsValue) base.keys }
  else
    { base with keys := applyKeyUpdate e.kind (findTagValue "op" e.tags) base.keys }

theorem updateFromEvent_wrote (stored : Option SubspaceCausality) (now : Int)
    (e : NEvent) (hsid : findTagValue "sid" e.tags ≠ "")
    (hval : IsValidSubspaceID (findTagValue "sid" e.tags) = true) :
    UpdateFromEvent stored now e = .wrote (updateResultDoc stored now e) := by
  unfold UpdateFromEvent updateResultDoc
  rw [if_neg hsid, if_neg (by simp [hval])]

theorem updateFromEvent_wrote_inv (stored : Option SubspaceCausality) (now : Int)
    (e : NEvent) (d : SubspaceCausality)
    (h : UpdateFromEvent stored now e = .wrote d) :
    d = updateResultDoc stored now e := by
  by_cases hsid : findTagValue "sid" e.tags = ""
  · exfalso
    unfold UpdateFromEvent at h
    rw [if_pos hsid] at h
    exact UpdateResult.noConfusion h
  · by_cases hval : IsValidSubspaceID (findTagValue "sid" e.tags) = false
    · exfalso
      unfold UpdateFromEvent at h
      rw [if_neg hsid, if_pos hval] at h
      exact UpdateResult.noConfusion h
    · have hval' : IsValidSubspaceID (findTagValue "sid" e.tags) = true := by
        revert hval
        cases IsValidSubspaceID (findTagValue "sid" e.tags) <;> simp
      rw [updateFromEvent_wrote stored now e hsid hval'] at h
      injection h with h'
      exact h'.symm

theorem updateResultDoc_events (stored : Option SubspaceCausality) (now : Int)
    (e : NEvent) : (updateResultDoc stored now e).events = logAfter stored e.id := by
  unfold updateResultDoc logAfter
  cases stored <;> by_cases hk : e.kind = 30100 <;>
    by_cases hops : findTagValue "ops" e.tags = "" <;>
      simp only [hk, hops, if_true, if_false, reduceIte]

theorem updateResultDoc_keys_creation (stored : Option SubspaceCausality)
    (now : Int) (e : NEvent) (hk : e.kind = 30100)
    (hops : findTagValue "ops" e.tags ≠ "") :
    (updateResultDoc stored now e).keys =
      initKeys (parseOpsTag (findTagValue "ops" e.tags)) (storedKeys stored) := by
  unfold updateResultDoc storedKeys
  simp only [hk, if_true, if_neg hops, reduceIte]
  cases stored <;> rfl

theorem updateResultDoc_keys_creation_noops (stored : Option SubspaceCausality)
    (now : Int) (e : NEvent) (hk : e.kind = 30100)
    (hops : findTagValue "ops" e.tags = "") :
    (updateResultDoc stored now e).keys = storedKeys stored := by
  unfold updateResultDoc storedKeys
  simp only [hk, hops, if_true, reduceIte]
  cases stored <;> rfl

theorem updateResultDoc_keys_other (stored : Option SubspaceCausality)
    (now : Int) (e : NEvent) (hk : e.kind ≠ 30100) :
    (updateResultDoc stored now e).keys =
      applyKeyUpdate e.kind (findTagValue "op" e.tags) (storedKeys stored) := by
  unfold updateResultDoc storedKeys
  simp only [if_neg hk]
  cases stored <;> rfl

/-- C7: IsValidSubspaceID returns true exactly on strings that are 0x
followed by 64 hexadecimal characters (digits and hex letters of either
case); the embedded function is a pure Boolean predicate on the string
and performs no I/O. -/
theorem C7_validate_iff_spec (sid : String) :
    IsValidSubspaceID sid = true ↔ specValidSubspaceID sid := by
  have hlen : sid.length = sid.toList.length := rfl
  unfold IsValidSubspaceID specValidSubspaceID
  rw [hlen]
  generalize sid.toList = l
  rcases l with _ | ⟨c0, _ | ⟨c1, rest⟩⟩
  · simp
  · simp
  · constructor
    · intro h
      simp only [Bool.and_eq_true, decide_eq_true_eq, List.all_eq_true] at h
      obtain ⟨h66, ⟨h0, h1⟩, hhex⟩ := h
      refine ⟨rest, by rw [h0, h1], ?_, ?_⟩
      · simp only [List.length_cons] at h66
        omega
      · intro c hc
        exact hhex c hc
    · rintro ⟨t, ht, ht64, hhex⟩
      obtain ⟨rfl, rfl, rfl⟩ : c0 = '0' ∧ c1 = 'x' ∧ rest = t := by
        injection ht with h1 ht'
        injection ht' with h2 h3
        exact ⟨h1, h2, h3⟩
      simp only [Bool.and_eq_true, decide_eq_true_eq, List.all_eq_true,
        List.length_cons]
      exact ⟨by omega, by simp, fun c hc => hhex c hc⟩

/-- C5: SaveEvent returns an error exactly when the event is nil or the
primary Put fails; once the primary write succeeds, failures of the
tracker and aggregator updates are only recorded as logged and the
outcome still carries the written event document unchanged, whatever
those update results are. -/
theorem C5_saveEvent_error_iff (e : Option NEvent)
    (putErr trackerErr aggErr : Option String) :
    (saveErrored (SaveEvent e putErr trackerErr aggErr) = true ↔
      e = none ∨ putErr.isSome = true) ∧
    (∀ ev, e = some ev → putErr = none →
      SaveEvent e putErr trackerErr aggErr =
        .saved (eventDoc ev) trackerErr.isSome aggErr.isSome) := by
  constructor
  · cases e <;> cases putErr <;> simp [SaveEvent, saveErrored]
  · rintro ev rfl rfl
    rfl

/-- Witness for C5: a concrete event whose tracker update fails while
the aggregator update succeeds; the save still succeeds and carries the
written document. -/
theorem C5_saveEvent_error_iff_witness :
    SaveEvent (some evCreate) none (some "tracker failed") none =
      .saved (eventDoc evCreate) true false := by
  exact (C5_saveEvent_error_iff (some evCreate) none (some "tracker failed") none).2
    evCreate rfl rfl

/-- C3: evaluation at the failing inputs: CountEvents counts a stored
causality document that QueryEvents filters out by its discriminator,
and it counts an event excluded by a tag condition, because its
predicate checks neither the discriminator nor the tags dimension. -/
theorem C3_count_query_disagree :
    CountEvents emptyFilter [causalityDoc] = 1 ∧
    QueryEventsDocs emptyFilter [causalityDoc] = [] ∧
    CountEvents sidFilter [evNoTagDoc] = 1 ∧
    QueryEventsDocs sidFilter [evNoTagDoc] = [] := by
  refine ⟨?_, ?_, ?_, ?_⟩ <;> rfl

/-- C6 as amended: for a valid subspace id with no stored causality
document, the events and allKeys accessors return empty results with no
error, but the key accessor returns a subspace-not-found error; for an
existing document the key accessor returns 0 with no error on an
unregistered key id. -/
theorem C6_notfound_accessors (store : String → Option SubspaceCausality)
    (sid : String) (keyID : Nat) (hvalid : IsValidSubspaceID sid = true) :
    (store sid = none →
      GetCausalityEvents store sid = .ok [] ∧
      GetAllCausalityKeys store sid = .ok [] ∧
      GetCausalityKey store sid keyID = .error (.subspaceNotFound sid)) ∧
    (∀ c, store sid = some c → alookup keyID c.keys = none →
      GetCausalityKey store sid keyID = .ok 0) := by
  constructor
  · intro h
    refine ⟨?_, ?_, ?_⟩ <;>
      simp [GetCausalityEvents, GetAllCausalityKeys, GetCausalityKey,
        GetSubspaceCausality, hvalid, h]
  · intro c hc hk
    simp [GetCausalityKey, GetSubspaceCausality, hvalid, hc, hk]

/-- C6 counterexample: on a valid subspace id with no stored document,
the key accessor returns an error, not 0 as the claim states. -/
theorem C6_counterexample :
    GetCausalityKey (fun _ => (none : Option SubspaceCausality)) sid64 1 =
      .error (.subspaceNotFound sid64) := rfl

/-- Witness for C6 at a concrete store: an absent document for the
three accessors and an unregistered key id of an existing document. -/
theorem C6_notfound_accessors_witness :
    (GetCausalityEvents (fun _ => (none : Option SubspaceCausality)) sid64 = .ok [] ∧
     GetAllCausalityKeys (fun _ => (none : Option SubspaceCausality)) sid64 = .ok [] ∧
     GetCausalityKey (fun _ => (none : Option SubspaceCausality)) sid64 1 =
       .error (.subspaceNotFound sid64)) ∧
    GetCausalityKey (fun s => if s = sid64 then some cWithCounter5 else none)
      sid64 99 = .ok 0 := by
  constructor
  · exact (C6_notfound_accessors (fun _ => none) sid64 1 (by decide)).1 rfl
  · exact (C6_notfound_accessors (fun s => if s = sid64 then some cWithCounter5 else none)
      sid64 99 (by decide)).2 cWithCounter5 (by simp) (by decide)

/-- The document left after re-delivering evCreate onto cWithCounter5:
key 1 was reset to 0 and key 2 registered at 0. -/
def cAfterReset : SubspaceCausality :=
  { id := sid64, subspace_id := sid64, keys := [(1, 0), (2, 0)],
    events := ["e0", "ev1"], created := 0, updated := 3 }

/-- The document left after evKind2Op hits cAfterCreate: key 2 at 1. -/
def cAfterVote2 : SubspaceCausality :=
  { id := sid64, subspace_id := sid64, keys := [(1, 0), (2, 1)],
    events := ["ev1", "ev2"], created := 0, updated := 1 }

/-- The document left after evKind2NoOp hits cAfterCreate: no counter
moved because the event has no op tag. -/
def cAfterNoOp : SubspaceCausality :=
  { id := sid64, subspace_id := sid64, keys := [(1, 0), (2, 0)],
    events := ["ev1", "ev2"], created := 0, updated := 1 }

/-- C1 as amended: on a creation event the tracker assigns counter 0 to
every parsed key id unconditionally, resetting an already-registered
counter rather than keeping it; no registered key is ever removed by
any update (the key set only grows), but a re-delivered creation event
can decrease a counter back to 0. -/
theorem C1_creation_registration (stored : Option SubspaceCausality) (now : Int)
    (e : NEvent) (hsid : findTagValue "sid" e.tags ≠ "")
    (hval : IsValidSubspaceID (findTagValue "sid" e.tags) = true) :
    (e.kind = 30100 → findTagValue "ops" e.tags ≠ "" →
      ∃ d, UpdateFromEvent stored now e = .wrote d ∧
        ∀ k ∈ (parseOpsTag (findTagValue "ops" e.tags)).map Prod.snd,
          alookup k d.keys = some 0) ∧
    (∀ d k v, UpdateFromEvent stored now e = .wrote d →
      alookup k (storedKeys stored) = some v →
      (alookup k d.keys).isSome = true) := by
  constructor
  · intro hk hops
    refine ⟨updateResultDoc stored now e,
      updateFromEvent_wrote stored now e hsid hval, ?_⟩
    intro k hkmem
    rw [updateResultDoc_keys_creation stored now e hk hops]
    exact initKeys_lookup_of_mem _ _ k hkmem
  · intro d k v h hlk
    rw [updateFromEvent_wrote_inv stored now e d h]
    have hsome : (alookup k (storedKeys stored)).isSome = true := by rw [hlk]; rfl
    by_cases hk : e.kind = 30100
    · by_cases hops : findTagValue "ops" e.tags = ""
      · rw [updateResultDoc_keys_creation_noops stored now e hk hops]
        exact hsome
      · rw [updateResultDoc_keys_creation stored now e hk hops]
        exact initKeys_isSome _ _ k hsome
    · rw [updateResultDoc_keys_other stored now e hk]
      exact applyKeyUpdate_isSome _ _ _ k hsome

/-- Witness for C1 at the concrete re-delivered creation event. -/
theorem C1_creation_registration_witness :
    (∃ d, UpdateFromEvent (some cWithCounter5) 3 evCreate = .wrote d ∧
      ∀ k ∈ (parseOpsTag (findTagValue "ops" evCreate.tags)).map Prod.snd,
        alookup k d.keys = some 0) ∧
    (∀ d k v, UpdateFromEvent (some cWithCounter5) 3 evCreate = .wrote d →
      alookup k (storedKeys (some cWithCounter5)) = some v →
      (alookup k d.keys).isSome = true) := by
  have h := C1_creation_registration (some cWithCounter5) 3 evCreate
    (by decide) (by decide)
  exact ⟨h.1 (by decide) (by decide), h.2⟩

/-- C1 counterexample: re-delivering a creation event whose ops tag
registers key 1 onto a document whose key 1 holds counter 5 resets that
counter to 0: registration is not idempotent on counters and a counter
does decrease. -/
theorem C1_counterexample :
    alookup 1 cWithCounter5.keys = some 5 ∧
    UpdateFromEvent (some cWithCounter5) 3 evCreate = .wrote cAfterReset ∧
    alookup 1 cAfterReset.keys = some 0 := by
  exact ⟨by decide, by decide, by decide⟩

/-- C2 as amended: for an event carrying a valid sid tag, a kind other
than 30100 and a nonempty op tag, a registered uint32 kind has its
counter incremented by exactly one (as a 64-bit counter) while every
other key is unchanged; the testable scenario holds once the subsequent
event carries an op tag: after the creation event registers keys 1 and
2 at 0, a kind-2 event with an op tag raises key 2 to 1 and key 1
stays 0. -/
theorem C2_kind_key_increment :
    (∀ (c : SubspaceCausality) (now : Int) (e : NEvent) (cnt : Nat),
      findTagValue "sid" e.tags ≠ "" →
      IsValidSubspaceID (findTagValue "sid" e.tags) = true →
      e.kind ≠ 30100 →
      findTagValue "op" e.tags ≠ "" →
      alookup (u32 e.kind) c.keys = some cnt →
      ∃ d, UpdateFromEvent (some c) now e = .wrote d ∧
        alookup (u32 e.kind) d.keys = some (u64mod (cnt + 1)) ∧
        ∀ k, k ≠ u32 e.kind → alookup k d.keys = alookup k c.keys) ∧
    (UpdateFromEvent none 0 evCreate = .wrote cAfterCreate ∧
     UpdateFromEvent (some cAfterCreate) 1 evKind2Op = .wrote cAfterVote2 ∧
     alookup 2 cAfterVote2.keys = some 1 ∧ alookup 1 cAfterVote2.keys = some 0) := by
  constructor
  · intro c now e cnt hsid hval hk hop hlk
    refine ⟨updateResultDoc (some c) now e,
      updateFromEvent_wrote _ now e hsid hval, ?_, ?_⟩
    · rw [updateResultDoc_keys_other _ now e hk]
      show alookup (u32 e.kind)
        (applyKeyUpdate e.kind (findTagValue "op" e.tags) c.keys) = _
      unfold applyKeyUpdate
      rw [if_neg hop, hlk]
      exact alookup_aset_self _ _ _
    · intro k hkne
      rw [updateResultDoc_keys_other _ now e hk]
      show alookup k (applyKeyUpdate e.kind (findTagValue "op" e.tags) c.keys) = _
      unfold applyKeyUpdate
      rw [if_neg hop, hlk]
      exact alookup_aset_of_ne k _ _ c.keys hkne
  · exact ⟨by decide, by decide, by decide, by decide⟩

/-- Witness for C2 at the concrete kind-2 event with an op tag. -/
theorem C2_kind_key_increment_witness :
    ∃ d, UpdateFromEvent (some cAfterCreate) 1 evKind2Op = .wrote d ∧
      alookup (u32 evKind2Op.kind) d.keys = some (u64mod (0 + 1)) ∧
      ∀ k, k ≠ u32 evKind2Op.kind →
        alookup k d.keys = alookup k cAfterCreate.keys := by
  exact C2_kind_key_increment.1 cAfterCreate 1 evKind2Op 0
    (by decide) (by decide) (by decide) (by decide) (by decide)

/-- C2 counterexample: a kind-2 event with a valid sid tag but no op
tag leaves the registered key 2 at counter 0 instead of raising it by
one, so the claim fails without the op-tag condition. -/
theorem C2_counterexample :
    alookup 2 cAfterCreate.keys = some 0 ∧
    UpdateFromEvent (some cAfterCreate) 1 evKind2NoOp = .wrote cAfterNoOp ∧
    alookup 2 cAfterNoOp.keys = some 0 := by
  exact ⟨by decide, by decide, by decide⟩

theorem logAfter_nodup (stored : Option SubspaceCausality) (eid : String)
    (h : ∀ c, stored = some c → c.events.Nodup) : (logAfter stored eid).Nodup := by
  cases stored with
  | none => simp [logAfter]
  | some c =>
    have hc := h c rfl
    unfold logAfter
    by_cases hm : eid ∈ c.events
    · simpa [hm] using hc
    · simp [hm, List.nodup_append, hc]

theorem stepCausality_preserves (now : Int)
    (store : String → Option SubspaceCausality) (e : NEvent)
    (h : ∀ s c, store s = some c → c.events.Nodup) :
    ∀ s c, stepCausality now store e s = some c → c.events.Nodup := by
  intro s c hc
  unfold stepCausality at hc
  cases hres : UpdateFromEvent (store (findTagValue "sid" e.tags)) now e with
  | noop =>
    rw [hres] at hc
    exact h s c hc
  | wrote d =>
    rw [hres] at hc
    simp only [] at hc
    by_cases hs : s = d.id
    · rw [if_pos hs] at hc
      injection hc with hc'
      subst hc'
      have hd := updateFromEvent_wrote_inv _ now e d hres
      rw [hd, updateResultDoc_events]
      exact logAfter_nodup _ e.id (fun c0 hc0 => h _ c0 hc0)
    · rw [if_neg hs] at hc
      exact h s c hc

theorem runCausality_preserves (now : Int) (es : List NEvent) :
    ∀ (store : String → Option SubspaceCausality),
      (∀ s c, store s = some c → c.events.Nodup) →
      ∀ s c, runCausality now es store s = some c → c.events.Nodup := by
  induction es with
  | nil =>
    intro store h s c hc
    exact h s c (by simpa [runCausality] using hc)
  | cons e rest ih =>
    intro store h s c hc
    exact ih (stepCausality now store e) (stepCausality_preserves now store e h)
      s c (by simpa [runCausality] using hc)

/-- C9: the tracker log gains the event id iff it is not already
present, and every causality document reachable from the empty store by
a sequence of delivered events has a duplicate-free event log. -/
theorem C9_event_log_nodup :
    (∀ (c : SubspaceCausality) (now : Int) (e : NEvent) (d : SubspaceCausality),
      UpdateFromEvent (some c) now e = .wrote d →
      d.events = if e.id ∈ c.events then c.events else c.events ++ [e.id]) ∧
    (∀ (es : List NEvent) (now : Int) (s : String) (c : SubspaceCausality),
      runCausality now es (fun _ => none) s = some c → c.events.Nodup) := by
  constructor
  · intro c now e d h
    rw [updateFromEvent_wrote_inv _ now e d h, updateResultDoc_events]
    rfl
  · intro es now s c hc
    exact runCausality_preserves now es (fun _ => none)
      (fun s0 c0 h0 => Option.noConfusion h0) s c hc

/-- Witness for C9: the concrete kind-2 event appends its fresh id, and
re-delivering the creation event twice from the empty store leaves the
log duplicate-free. -/
theorem C9_event_log_nodup_witness :
    cAfterVote2.events = cAfterCreate.events ++ [evKind2Op.id] ∧
    cAfterCreate.events.Nodup := by
  constructor
  · have h := C9_event_log_nodup.1 cAfterCreate 1 evKind2Op cAfterVote2 (by decide)
    simpa using h
  · exact C9_event_log_nodup.2 [evCreate, evCreate] 0 sid64 cAfterCreate (by decide)

/-! Read-back accessors for stating the aggregator claims. -/

/-- Total accepted invitations recorded on a stored user document. -/
def invitedTotal : Option UserStats → Nat
  | none => 0
  | some s =>
    match s.inviteStats with
    | none => 0
    | some i => i.totalInvited

/-- Accepted invitations recorded for one subspace. -/
def invitedInSub (S : String) : Option UserStats → Nat
  | none => 0
  | some s =>
    match s.inviteStats with
    | none => 0
    | some i => (alookup S i.subspaceInvited).getD 0

/-- Invitation records stored for one subspace. -/
def invitedRecords (S : String) : Option UserStats → List InvitedUserInfo
  | none => []
  | some s =>
    match s.inviteStats with
    | none => []
    | some i => (alookup S i.invitedUsers).getD []

/-- Invite tallies of a stored user document, none when absent. -/
def optInviteStats : Option UserStats → Option InviteStats
  | none => none
  | some s => s.inviteStats

theorem updateInviterStats_invitedTotal (stored : Option UserStats)
    (A B S : String) (now : Int) :
    invitedTotal (some (updateInviterStats stored A B S now)) =
      u64mod (invitedTotal stored + 1) := by
  unfold updateInviterStats invitedTotal
  cases stored with
  | none => rfl
  | some s => cases hi : s.inviteStats <;> simp [hi]

theorem updateInviterStats_invitedInSub (stored : Option UserStats)
    (A B S : String) (now : Int) :
    invitedInSub S (some (updateInviterStats stored A B S now)) =
      u64mod (invitedInSub S stored + 1) := by
  unfold updateInviterStats invitedInSub
  cases stored with
  | none => simp [alookup_aset_self, alookup, aset]
  | some s => cases hi : s.inviteStats <;> simp [hi, alookup_aset_self, alookup]

theorem updateInviterStats_invitedRecords (stored : Option UserStats)
    (A B S : String) (now : Int) :
    invitedRecords S (some (updateInviterStats stored A B S now)) =
      invitedRecords S stored ++
        [{ userID := B, subspaceID := S, timestamp := now }] := by
  unfold updateInviterStats invitedRecords
  cases stored with
  | none => simp [alookup_aset_self, alookup, aset]
  | some s => cases hi : s.inviteStats <;> simp [hi, alookup_aset_self, alookup]

theorem updateAuthorStats_inviteStats (stored : Option UserStats) (now : Int)
    (e : NEvent) :
    (updateAuthorStats stored now e).inviteStats = optInviteStats stored := by
  unfold optInviteStats
  cases stored <;>
    simp only [updateAuthorStats, freshUserStats] <;>
    split_ifs <;> rfl

/-- C4 as amended: an invite-acceptance event (uint32 kind 30303) from
user B tagged sid=S and inviter_addr=A triggers a second, independent
read-modify-write on the document of A (not B) that raises totalInvited
by one, the per-subspace invited count of S by one, and appends exactly
one record for B with the current timestamp; the author document of B
gains no invite bookkeeping; when the secondary update fails it is only
logged, the primary update of B is written unchanged and the document
of A stays untouched. -/
theorem C4_inviter_second_update (store : String → Option UserStats) (now : Int)
    (e : NEvent) (A B S : String)
    (hB : e.pubkey = B) (hk : u32 e.kind = 30303)
    (hS : findTagValue "sid" e.tags = S) (hSne : S ≠ "")
    (hA : findTagValue "inviter_addr" e.tags = A) (hAne : A ≠ "") (hAB : A ≠ B) :
    (UpdateUserStatsFromEvent store now e true A =
        some (updateInviterStats (store A) A B S now) ∧
      invitedTotal (UpdateUserStatsFromEvent store now e true A) =
        u64mod (invitedTotal (store A) + 1) ∧
      invitedInSub S (UpdateUserStatsFromEvent store now e true A) =
        u64mod (invitedInSub S (store A) + 1) ∧
      invitedRecords S (UpdateUserStatsFromEvent store now e true A) =
        invitedRecords S (store A) ++
          [{ userID := B, subspaceID := S, timestamp := now }]) ∧
    (UpdateUserStatsFromEvent store now e true B =
        some (updateAuthorStats (store B) now e) ∧
      (updateAuthorStats (store B) now e).inviteStats = optInviteStats (store B)) ∧
    (UpdateUserStatsFromEvent store now e false B =
        UpdateUserStatsFromEvent store now e true B ∧
      UpdateUserStatsFromEvent store now e false A = store A) := by
  have hcond : findTagValue "sid" e.tags ≠ "" ∧ u32 e.kind = 30303 ∧
      findTagValue "inviter_addr" e.tags ≠ "" ∧ True :=
    ⟨by rw [hS]; exact hSne, hk, by rw [hA]; exact hAne, trivial⟩
  have hAB' : A ≠ e.pubkey := by rw [hB]; exact hAB
  have hrA : UpdateUserStatsFromEvent store now e true A =
      some (updateInviterStats (store A) A B S now) := by
    simp only [UpdateUserStatsFromEvent]
    rw [if_neg hAB', if_pos hcond]
    simp [hA, hS, hB]
  have hrB : UpdateUserStatsFromEvent store now e true B =
      some (updateAuthorStats (store B) now e) := by
    simp only [UpdateUserStatsFromEvent]
    rw [if_pos hB.symm, hB]
  have hrBfail : UpdateUserStatsFromEvent store now e false B =
      some (updateAuthorStats (store B) now e) := by
    simp only [UpdateUserStatsFromEvent]
    rw [if_pos hB.symm, hB]
  have hrAfail : UpdateUserStatsFromEvent store now e false A = store A := by
    simp only [UpdateUserStatsFromEvent]
    rw [if_neg hAB', if_neg (fun hcc => Bool.false_ne_true hcc.2.2.2)]
  refine ⟨⟨hrA, ?_, ?_, ?_⟩, ⟨hrB, updateAuthorStats_inviteStats (store B) now e⟩,
    hrBfail.trans hrB.symm, hrAfail⟩
  · rw [hrA, updateInviterStats_invitedTotal]
  · rw [hrA, updateInviterStats_invitedInSub]
  · rw [hrA, updateInviterStats_invitedRecords]

/-- Witness for C4 at the concrete invite event from an empty store. -/
theorem C4_inviter_second_update_witness :
    invitedTotal (UpdateUserStatsFromEvent (fun _ => none) 9 evInvite true "alice") = 1 ∧
    invitedInSub sid64 (UpdateUserStatsFromEvent (fun _ => none) 9 evInvite true "alice") = 1 ∧
    invitedRecords sid64 (UpdateUserStatsFromEvent (fun _ => none) 9 evInvite true "alice") =
      [{ userID := "bob", subspaceID := sid64, timestamp := 9 }] ∧
    UpdateUserStatsFromEvent (fun _ => none) 9 evInvite false "alice" = none := by
  have h := C4_inviter_second_update (fun _ => none) 9 evInvite "alice" "bob" sid64
    rfl (by decide) rfl (by decide) rfl (by decide) (by decide)
  refine ⟨?_, ?_, ?_, h.2.2.2⟩
  · rw [h.1.2.1]; rfl
  · rw [h.1.2.2.1]; rfl
  · rw [h.1.2.2.2]; rfl

/-- C4 counterexample: an invite event whose tag is literally named
inviter, as the claim words it, triggers no inviter update at all: the
code reads the inviter_addr tag, so the document of the named inviter
stays absent and records no invitation. -/
theorem C4_counterexample :
    UpdateUserStatsFromEvent (fun _ => none) 9 evInviteSpecTag true "alice" = none ∧
    invitedTotal (UpdateUserStatsFromEvent (fun _ => none) 9 evInviteSpecTag true "alice") = 0 := by
  exact ⟨by decide, by decide⟩

/-- Per-subspace tallies 3, 2, 1 of the vote scenario. -/
def svs321 : SubspaceVoteStats := { totalVotes := 3, yesVotes := 2, noVotes := 1 }

/-- Vote tallies 3, 2, 1 with the single-subspace breakdown. -/
def vs321 : VoteStats :=
  { totalVotes := 3, yesVotes := 2, noVotes := 1, subspaceVotes := [(sid64, svs321)] }

/-- The author document after the yes, yes, no vote scenario. -/
def sBobAfter3 : UserStats :=
  { id := "bob", totalStats := [(30302, 3)],
    subspaceStats := [(sid64, [(30302, 3)])],
    createdSubspaces := [], joinedSubspaces := [],
    voteStats := some vs321, inviteStats := none, lastUpdated := 7 }

/-- The user-stats store after bob votes yes, yes, no in sid64. -/
def voteStore3 : String → Option UserStats :=
  UpdateUserStatsFromEvent
    (UpdateUserStatsFromEvent
      (UpdateUserStatsFromEvent (fun _ => none) 7 (voteEv "v1" "yes") true)
      7 (voteEv "v2" "yes") true)
    7 (voteEv "v3" "no") true

/-- A stored author document carrying vote tallies 3, 2, 1. -/
def sBobSimple : UserStats :=
  { id := "bob", totalStats := [], subspaceStats := [],
    createdSubspaces := [], joinedSubspaces := [],
    voteStats := some vs321, inviteStats := none, lastUpdated := 0 }

theorem updateAuthorStats_voteStats (stored : Option UserStats) (now : Int)
    (e : NEvent) (s : UserStats) (vs : VoteStats) (sv : SubspaceVoteStats)
    (S v : String) (hstored : stored = some s) (hk : u32 e.kind = 30302)
    (hS : findTagValue "sid" e.tags = S) (hSne : S ≠ "")
    (hv : findTagValue "vote" e.tags = v) (hvy : v ≠ "yes") (hvn : v ≠ "no")
    (hvs : s.voteStats = some vs) (hsv : alookup S vs.subspaceVotes = some sv) :
    (updateAuthorStats stored now e).voteStats = some
      { totalVotes := u64mod (vs.totalVotes + 1),
        yesVotes := vs.yesVotes, noVotes := vs.noVotes,
        subspaceVotes := aset S
          { totalVotes := u64mod (sv.totalVotes + 1),
            yesVotes := sv.yesVotes, noVotes := sv.noVotes }
          vs.subspaceVotes } := by
  subst hstored
  simp only [updateAuthorStats, hk, hS, hv, hvs, hsv]
  rw [if_neg hSne]
  simp [hvy, hvn]

/-- C8: three vote events yes, yes, no from one user in one subspace
produce vote tallies total 3, yes 2, no 1 at both granularities; and a
vote event whose vote tag is neither yes nor no increments only the
total counters at both granularities, leaving the yes and no counters
unchanged. -/
theorem C8_vote_tallies :
    (voteStore3 "bob" = some sBobAfter3 ∧ sBobAfter3.voteStats = some vs321 ∧
      alookup sid64 vs321.subspaceVotes = some svs321) ∧
    (∀ (store : String → Option UserStats) (now : Int) (e : NEvent)
      (u S v : String) (s : UserStats) (vs : VoteStats) (sv : SubspaceVoteStats),
      e.pubkey = u → u32 e.kind = 30302 →
      findTagValue "sid" e.tags = S → S ≠ "" →
      findTagValue "vote" e.tags = v → v ≠ "yes" → v ≠ "no" →
      store u = some s → s.voteStats = some vs →
      alookup S vs.subspaceVotes = some sv →
      ∃ s2, UpdateUserStatsFromEvent store now e true u = some s2 ∧
        s2.voteStats = some
          { totalVotes := u64mod (vs.totalVotes + 1),
            yesVotes := vs.yesVotes, noVotes := vs.noVotes,
            subspaceVotes := aset S
              { totalVotes := u64mod (sv.totalVotes + 1),
                yesVotes := sv.yesVotes, noVotes := sv.noVotes }
              vs.subspaceVotes }) := by
  constructor
  · exact ⟨by decide, by decide, by decide⟩
  · intro store now e u S v s vs sv hu hk hS hSne hv hvy hvn hstore hvs hsv
    have hru : UpdateUserStatsFromEvent store now e true u =
        some (updateAuthorStats (store u) now e) := by
      simp only [UpdateUserStatsFromEvent]
      rw [if_pos hu.symm, hu]
    refine ⟨updateAuthorStats (store u) now e, hru, ?_⟩
    exact updateAuthorStats_voteStats (store u) now e s vs sv S v hstore hk hS hSne
      hv hvy hvn hvs hsv

/-- Witness for C8 at a concrete abstain vote on stored tallies 3, 2, 1. -/
theorem C8_vote_tallies_witness :
    ∃ s2, UpdateUserStatsFromEvent
        (fun u => if u = "bob" then some sBobSimple else none)
        11 (voteEv "v4" "abstain") true "bob" = some s2 ∧
      s2.voteStats = some
        { totalVotes := u64mod (vs321.totalVotes + 1),
          yesVotes := vs321.yesVotes, noVotes := vs321.noVotes,
          subspaceVotes := aset sid64
            { totalVotes := u64mod (svs321.totalVotes + 1),
              yesVotes := svs321.yesVotes, noVotes := svs321.noVotes }
            vs321.subspaceVotes } := by
  exact C8_vote_tallies.2 (fun u => if u = "bob" then some sBobSimple else none)
    11 (voteEv "v4" "abstain") "bob" sid64 "abstain" sBobSimple vs321 svs321
    rfl (by decide) rfl (by decide) rfl (by decide) (by decide) (by decide)
    rfl (by decide)

/-- C10: the fallback key resolution depends on the map iteration
order: two causality documents carrying the same key map in different
iteration orders, with the event kind unregistered and the decimal
strings of two registered keys both ending in the op value, make
UpdateFromEvent increment different keys on the identical event. -/
theorem C10_fallback_order_dependent :
    ∃ (c1 c2 : SubspaceCausality) (e : NEvent) (now : Int)
      (d1 d2 : SubspaceCausality),
      (∀ k, alookup k c1.keys = alookup k c2.keys) ∧
      alookup (u32 e.kind) c1.keys = none ∧
      UpdateFromEvent (some c1) now e = .wrote d1 ∧
      UpdateFromEvent (some c2) now e = .wrote d2 ∧
      alookup 12 d1.keys = some 1 ∧ alookup 22 d1.keys = some 0 ∧
      alookup 12 d2.keys = some 0 ∧ alookup 22 d2.keys = some 1 := by
  refine ⟨cOrderA, cOrderB, evSuffix2, 0,
    { id := sid64, subspace_id := sid64, keys := [(12, 1), (22, 0)],
      events := ["ev10"], created := 0, updated := 0 },
    { id := sid64, subspace_id := sid64, keys := [(22, 1), (12, 0)],
      events := ["ev10"], created := 0, updated := 0 },
    ?_, by decide, by decide, by decide, by decide, by decide, by decide, by decide⟩
  intro k
  show alookup k [(12, 0), (22, 0)] = alookup k [(22, 0), (12, 0)]
  simp only [alookup]
  by_cases h12 : (12 : Nat) = k <;> by_cases h22 : (22 : Nat) = k <;>
    simp [h12, h22]

end CRelay
